import Mathlib

/-!
Verification of the `controlnet_ext` adapter module (`controlnet_ext/controlnet_ext.py`).

The module is discovery-and-adaptation glue between the detail-pass plugin and the
ControlNet plugin inside a shared webui host.  We embed its data model and operations
shallowly: Python strings become `String`, `None`-able values become `Option`,
exceptions become `Except PyErr`, and the opaque collaborators (the neighbor's
`external_code` module, the host's hashing utility, the filesystem) become explicit
record fields and function parameters.  Floating-point parameters (`weight`,
`guidance_start`, `guidance_end`) are passed through by the code without being
inspected, so they are modeled as `Int` pass-through values.
-/

/-- Python's `needle in hay` substring test on strings. -/
def pyIn (needle hay : String) : Bool :=
  decide (needle.toList <:+: hay.toList)

/-- Index of the last occurrence of `c` in `cs` (Python `str.rfind`, as an `Option`). -/
def pyRFind (cs : List Char) (c : Char) : Option Nat :=
  ((List.range cs.length).filter (fun i => cs.getD i ' ' = c)).getLast?

/-- `pathlib.PurePath.suffix`: the last dot-suffix of the filename, empty when there is
no dot, when the dot is the leading character, or when it is the final character. -/
def pathSuffix (name : String) : String :=
  let cs := name.toList
  match pyRFind cs '.' with
  | some i => if 0 < i ∧ i < cs.length - 1 then String.mk (cs.drop i) else ""
  | none => ""

/-- `pathlib.PurePath.stem`: the filename with `pathSuffix` removed. -/
def pathStem (name : String) : String :=
  let cs := name.toList
  match pyRFind cs '.' with
  | some i => if 0 < i ∧ i < cs.length - 1 then String.mk (cs.take i) else name
  | none => name

/-- Python `s.strip(" ")`: remove leading and trailing space characters. -/
def pyStripSpaces (s : String) : String :=
  String.mk (((s.toList.dropWhile (· = ' ')).reverse.dropWhile (· = ' ')).reverse)

/-- Python `s.lower()`: per-character lowercasing (the same character map as
`String.toLower`, written over the character list). -/
def pyLower (s : String) : String :=
  String.mk (s.toList.map Char.toLower)

/-- The `cn_model_module` table: keyword → preprocessing-module identifier, in source
order (Python dicts preserve insertion order). -/
def cn_model_module : List (String × String) :=
  [("inpaint", "inpaint_global_harmonious"),
   ("scribble", "t2ia_sketch_pidi"),
   ("lineart", "lineart_coarse"),
   ("openpose", "openpose_full"),
   ("tile", "tile_resample"),
   ("depth", "depth_midas"),
   ("ip-adapter-faceid-plusv2", "ip-adapter_face_id_plus")]

/-- `cn_model_regex = re.compile("|".join(cn_model_module.keys()))`.  Every key is a
regex-literal string (letters, digits, hyphens), so `cn_model_regex.search(s)` succeeds
exactly when some key of the table is a substring of `s`. -/
def cnModelRegexSearch (s : String) : Bool :=
  cn_model_module.any (fun kv => pyIn kv.1 s)

/-- Images are opaque here (the Python parameter type is `str | None`). -/
abbrev Image := String

/-- The Python exceptions this module raises, catches or propagates. -/
inductive PyErr where
  | attributeError (msg : String)
  | runtimeError (msg : String)
  | typeError (msg : String)
  | importError (msg : String)
  deriving DecidableEq

/-- The neighbor's `external_code.ControlMode` enum; the adapter only ever uses
`BALANCED`. -/
inductive ControlMode where
  | BALANCED
  | MY_PROMPT_IS_MORE_IMPORTANT
  | CONTROLNET_IS_MORE_IMPORTANT
  deriving DecidableEq

/-- The dynamic value held by a `ControlNetUnit.image` attribute: either a plain image
(what `update_scripts_args` itself stores there) or the host's dict shape
`{"image": ...}` (what units already present in `script_args` carry). -/
inductive ImageVal where
  | raw (img : Image)
  | imgDict (image : Option Image)
  deriving DecidableEq

/-- The neighbor's `external_code.ControlNetUnit` constructor, restricted to the fields
this module reads or writes. -/
structure ControlNetUnit where
  model : String
  weight : Int
  control_mode : ControlMode
  module : Option String
  guidance_start : Int
  guidance_end : Int
  pixel_perfect : Bool
  image : Option ImageVal
  inpaint_crop_input_image : Bool
  deriving DecidableEq

/-- One entry of a request's `p.script_args` tuple: a native `ControlNetUnit`, a legacy
dict-shaped unit (keys `"module"` and `"input_image"`, absent keys giving `None` via
`dict.get`), or any other per-script argument. -/
inductive ScriptArg where
  | unit (u : ControlNetUnit)
  | dictArg (module : Option String) (input_image : Option Image)
  | other
  deriving DecidableEq

/-- The processing request `p`; only its `script_args` are read by this module, and it
is only ever written through the neighbor's merge hook. -/
structure Request where
  script_args : List ScriptArg
  deriving DecidableEq

/-- The surface of the neighbor's dynamically imported `external_code` module used
here: `get_models()` and `update_cn_script_in_processing(p, units)`.  The merge hook's
behavior is opaque, so it is a function returning `.ok` for a normal return or
`.error` for whatever exception it raises. -/
structure ExternalCode where
  get_models : List String
  update_cn_script_in_processing : Request → List ControlNetUnit → Except PyErr Unit

/-- The `ControlNetExt` adapter object's state. -/
structure ControlNetExt where
  cn_models : List String
  cn_available : Bool
  external_cn : Option ExternalCode

/-- `ControlNetExt.__init__`. -/
def ControlNetExt.new : ControlNetExt :=
  { cn_models := ["None"], cn_available := false, external_cn := none }

/-- `init_controlnet`: the dynamic import either raises (the exception propagates and
the state is untouched, since it occurs before any assignment) or yields the module;
on success the handle is stored, availability is set, and `cn_models` is extended with
the neighbor's reported models that match the keyword regex. -/
def ControlNetExt.init_controlnet (s : ControlNetExt)
    (importResult : Except PyErr ExternalCode) : ControlNetExt × Option PyErr :=
  match importResult with
  | .error e => (s, some e)
  | .ok api =>
      ({ cn_models := s.cn_models ++ api.get_models.filter (fun m => cnModelRegexSearch m),
         cn_available := true,
         external_cn := some api }, none)

/-- The `for m, v in cn_model_module.items(): if m in model: module = v; break` loop
with its `else: module = None` clause. -/
def lookupCnModule : List (String × String) → String → Option String
  | [], _ => none
  | (m, v) :: rest, model => if pyIn m model then some v else lookupCnModule rest model

/-- Lines 84–90 of `update_scripts_args`: the table scan runs only when the caller
passed no module (Python `None`) or the sentinel string `"None"`. -/
def resolveModule (module : Option String) (model : String) : Option String :=
  if module = none ∨ module = some "None" then lookupCnModule cn_model_module model
  else module

/-- `extract_face_id_from_controlnet`.  For a native unit whose `module` is the
face-identity variant the code returns `arg.image["image"]` without first checking that
`arg.image` is present: subscripting `None` raises `TypeError`, subscripting a plain
(string) image with a string key also raises `TypeError`.  For a legacy dict it checks
both the module and that `input_image` is present. -/
def extract_face_id_from_controlnet : List ScriptArg → Except PyErr (Option Image)
  | [] => .ok none
  | .unit u :: rest =>
      if u.module = some "ip-adapter_face_id_plus" then
        match u.image with
        | some (.imgDict i) => .ok i
        | some (.raw _) => .error (.typeError "string indices must be integers")
        | none => .error (.typeError "'NoneType' object is not subscriptable")
      else extract_face_id_from_controlnet rest
  | .dictArg m input_image :: rest =>
      if m = some "ip-adapter_face_id_plus" ∧ input_image ≠ none then .ok input_image
      else extract_face_id_from_controlnet rest
  | .other :: rest => extract_face_id_from_controlnet rest

/-- The user-facing message of the version-incompatibility error raised when the merge
hook is missing on an old host. -/
def cnVersionMsg : String :=
  "[-] Adetailer: ControlNet option not available in WEBUI version lower than 1.6.0 due to updates in ControlNet"

/-- The `try/except AttributeError` block around the merge call: an `AttributeError`
whose message does not mention `script_args_value` is re-raised unchanged; one that
does is replaced by `RuntimeError(cnVersionMsg)`; every other outcome (normal return
or a different exception) passes through. -/
def translateMergeResult : Except PyErr Unit → Except PyErr Unit
  | .ok _ => .ok ()
  | .error (.attributeError m) =>
      if pyIn "script_args_value" m = false then .error (.attributeError m)
      else .error (.runtimeError cnVersionMsg)
  | .error e => .error e

/-- `ControlNetExt.update_scripts_args`.  The result records the merge-hook invocations
made (each with the unit list passed to it) together with the call's outcome: `.ok` for
a normal return, `.error` for a propagated exception.  The request is only ever
modified through the neighbor's merge hook, so an empty invocation list means the
request's script arguments are untouched.  The two textually separate calls to
`extract_face_id_from_controlnet` on lines 95–96 are pure and collapse to one value.
Accessing an attribute of a `None` handle (only possible when `cn_available` is set
while `external_cn` is `None`) raises `AttributeError` outside the `try` block. -/
def ControlNetExt.update_scripts_args (s : ControlNetExt) (p : Request) (model : String)
    (module : Option String) (weight guidance_start guidance_end : Int)
    (input_image : Option Image) : List (List ControlNetUnit) × Except PyErr Unit :=
  if s.cn_available = false ∨ model = "None" then ([], .ok ())
  else
    match s.external_cn with
    | none => ([], .error (.attributeError "'NoneType' object has no attribute 'ControlNetUnit'"))
    | some api =>
      let module' := resolveModule module model
      let inpaint0 := input_image.isNone
      let faceStep : Except PyErr (Option Image × Bool) :=
        if module' = some "ip-adapter_face_id_plus" ∧ input_image = none then
          match extract_face_id_from_controlnet p.script_args with
          | .error e => .error e
          | .ok (some img) => .ok (some img, false)
          | .ok none => .ok (input_image, inpaint0)
        else .ok (input_image, inpaint0)
      match faceStep with
      | .error e => ([], .error e)
      | .ok (image', inpaint') =>
        let cn_units : List ControlNetUnit :=
          [⟨model, weight, .BALANCED, module', guidance_start, guidance_end,
            true, image'.map .raw, inpaint'⟩]
        ([cn_units], translateMergeResult (api.update_cn_script_in_processing p cn_units))

/-- One host extension descriptor as read by the discovery loop. -/
structure ExtensionInfo where
  name : String
  enabled : Bool
  deriving DecidableEq

/-- The module-level discovery loop over `extensions.active()`: skip disabled entries,
select the first whose name contains `"sd-webui-controlnet"`. -/
def findControlnetExt : List ExtensionInfo → Option ExtensionInfo
  | [] => none
  | e :: rest =>
      if e.enabled = false then findControlnetExt rest
      else if pyIn "sd-webui-controlnet" e.name then some e
      else findControlnetExt rest

/-- The module-level `controlnet_exists` flag. -/
def controlnet_exists (active : List ExtensionInfo) : Bool :=
  (findControlnetExt active).isSome

/-- One filesystem entry produced by `base.rglob("*")`: its final name component,
whether it is a regular file, and the host's `sd_models.model_hash` result for it (the
hashing utility is opaque and deterministic per file, so it is carried as data). -/
structure FSEntry where
  name : String
  isFile : Bool
  hash : String
  deriving DecidableEq

/-- One directory from `get_cn_model_dirs()`: whether `base.exists()` and the `rglob`
listing in traversal order. -/
structure ModelDir where
  onDisk : Bool
  files : List FSEntry
  deriving DecidableEq

/-- The ambient inputs of `_get_cn_models`: the resolved directory list and the host
setting `control_net_models_name_filter`. -/
structure ScanEnv where
  dirs : List ModelDir
  control_net_models_name_filter : String
  deriving DecidableEq

/-- The five whitelisted model-file extensions (`cn_model_exts`). -/
def cn_model_exts : List String :=
  [".pt", ".pth", ".ckpt", ".safetensors", ".bin"]

/-- The accumulation loop of `_get_cn_models`: for each existing directory, keep the
regular files whose suffix is whitelisted, whose name matches the keyword regex, and
which survive the (stripped, lowercased) name filter when that filter is nonempty. -/
def scanSurvivors (env : ScanEnv) : List FSEntry :=
  let name_filter := pyLower (pyStripSpaces env.control_net_models_name_filter)
  (env.dirs.filter (fun d => d.onDisk)).flatMap (fun d =>
    d.files.filter (fun e =>
      e.isFile && cn_model_exts.contains (pathSuffix e.name) && cnModelRegexSearch e.name
        && (decide (name_filter = "") || pyIn name_filter (pyLower e.name))))

/-- Lexicographic comparison of character lists by code point: Python's `str` order,
used by `sort(key=lambda p: p.name)`. -/
def charListLe : List Char → List Char → Bool
  | [], _ => true
  | _ :: _, [] => false
  | a :: as, b :: bs =>
      if a < b then true
      else if b < a then false
      else charListLe as bs

/-- The `sort(key=lambda p: p.name)` comparison on entries. -/
def entryLe (a b : FSEntry) : Prop :=
  charListLe a.name.toList b.name.toList = true

instance : DecidableRel entryLe := fun a b =>
  instDecidableEqBool (charListLe a.name.toList b.name.toList) true

/-- `_get_cn_models` (without its `lru_cache` wrapper, which is modeled separately):
collect survivors, sort them by filename, then format each as `"<stem> [<hash>]"`.
Python's `list.sort` is a stable sort keyed on the filename; a stable sort's output is
determined by its key order and the input order, so the (stable) insertion sort here
computes the same list. -/
def _get_cn_models (env : ScanEnv) : List String :=
  let sorted := List.insertionSort entryLe (scanSurvivors env)
  sorted.map (fun e => pathStem e.name ++ " [" ++ e.hash ++ "]")

/-- The `@lru_cache` wrapper on the zero-argument `_get_cn_models`: a single memo slot
that is filled on the first call and returned verbatim afterwards.  The `env` argument
is the state of the filesystem and settings at call time. -/
def _get_cn_models_cached (env : ScanEnv) :
    Option (List String) → List String × Option (List String)
  | some v => (v, some v)
  | none => let v := _get_cn_models env; (v, some v)

/-- `get_cn_models`: skip the scan entirely when the neighbor was never detected. -/
def get_cn_models (active : List ExtensionInfo) (env : ScanEnv) : List String :=
  if controlnet_exists active then _get_cn_models env else []

/-- States of a `ControlNetExt` object reachable in a process: the constructor's state,
followed by any number of `init_controlnet` calls (each with whatever result its
dynamic import produced).  `update_scripts_args` and `extract_face_id_from_controlnet`
never assign to `self`, so they contribute no steps. -/
inductive Reachable : ControlNetExt → Prop
  | base : Reachable ControlNetExt.new
  | step (s : ControlNetExt) (r : Except PyErr ExternalCode) :
      Reachable s → Reachable (s.init_controlnet r).1

/-! ## Concrete fixtures used by counterexamples and witnesses -/

/-- A neighbor module whose merge hook succeeds. -/
def apiOk : ExternalCode :=
  { get_models := [], update_cn_script_in_processing := fun _ _ => .ok () }

/-- A neighbor module whose merge hook raises the missing-attribute error of an old
host (`AttributeError` mentioning `script_args_value`). -/
def apiAttrOld : ExternalCode :=
  { get_models := [],
    update_cn_script_in_processing := fun _ _ =>
      .error (.attributeError "'ControlNetScript' object has no attribute 'script_args_value'") }

/-- An adapter that completed `init_controlnet` against `apiOk`. -/
def sAvail : ControlNetExt :=
  { cn_models := ["None"], cn_available := true, external_cn := some apiOk }

/-- An adapter that completed `init_controlnet` against `apiAttrOld`. -/
def sAttrOld : ControlNetExt :=
  { cn_models := ["None"], cn_available := true, external_cn := some apiAttrOld }

/-- A face-identity `ControlNetUnit` already present in a request's `script_args` whose
`image` attribute is `None` — the shape on which `arg.image["image"]` raises. -/
def badFaceUnit : ControlNetUnit :=
  ⟨"facemodel", 1, .BALANCED, some "ip-adapter_face_id_plus", 0, 1, true, none, false⟩

/-- A request whose script args hold only `badFaceUnit`. -/
def pBad : Request := { script_args := [.unit badFaceUnit] }

/-- A request with empty script args. -/
def pEmpty : Request := { script_args := [] }

/-- The arguments on which `extract_face_id_from_controlnet` stops scanning and
returns (or raises): a native unit is selected by its module alone, a legacy dict only
when its `input_image` is also present. -/
def faceArgHit : ScriptArg → Bool
  | .unit u => decide (u.module = some "ip-adapter_face_id_plus")
  | .dictArg m input_image => decide (m = some "ip-adapter_face_id_plus" ∧ input_image ≠ none)
  | .other => false

/-- What `extract_face_id_from_controlnet` produces at the argument it stops on. -/
def faceArgResult : ScriptArg → Except PyErr (Option Image)
  | .unit u =>
      match u.image with
      | some (.imgDict i) => .ok i
      | some (.raw _) => .error (.typeError "string indices must be integers")
      | none => .error (.typeError "'NoneType' object is not subscriptable")
  | .dictArg _ input_image => .ok input_image
  | .other => .ok none

/-- Two model directories holding two distinct on-disk files that share the filename
`"openpose.pt"` (they differ in content, hence in hash), listed in one order… -/
def dupEnvA : ScanEnv :=
  { dirs := [⟨true, [⟨"openpose.pt", true, "hashA"⟩]⟩, ⟨true, [⟨"openpose.pt", true, "hashB"⟩]⟩],
    control_net_models_name_filter := "" }

/-- …and the same two directories listed in the other order. -/
def dupEnvB : ScanEnv :=
  { dirs := [⟨true, [⟨"openpose.pt", true, "hashB"⟩]⟩, ⟨true, [⟨"openpose.pt", true, "hashA"⟩]⟩],
    control_net_models_name_filter := "" }

/-! ## Helper lemmas -/

theorem lookupCnModule_hit (model : String) :
    ∀ (l : List (String × String)) (i : Nat) (hi : i < l.length),
      pyIn (l.get ⟨i, hi⟩).1 model = true →
      (∀ j (hj : j < i), pyIn (l.get ⟨j, Nat.lt_trans hj hi⟩).1 model = false) →
      lookupCnModule l model = some (l.get ⟨i, hi⟩).2 := by
  intro l
  induction l with
  | nil => intro i hi; exact absurd hi (Nat.not_lt_zero i)
  | cons kv rest ih =>
    intro i hi hhit hmiss
    match i with
    | 0 =>
      simp only [List.get] at hhit ⊢
      simp [lookupCnModule, hhit]
    | j + 1 =>
      have h0 : pyIn kv.1 model = false := hmiss 0 (Nat.succ_pos j)
      simp only [List.get] at hhit h0 ⊢
      simp only [lookupCnModule, h0, Bool.false_eq_true, if_false]
      exact ih j (Nat.lt_of_succ_lt_succ hi) hhit
        (fun j' hj' => hmiss (j' + 1) (Nat.succ_lt_succ hj'))

theorem lookupCnModule_miss (model : String) :
    ∀ l : List (String × String), (∀ kv ∈ l, pyIn kv.1 model = false) →
      lookupCnModule l model = none := by
  intro l
  induction l with
  | nil => intro _; rfl
  | cons kv rest ih =>
    intro h
    have h0 : pyIn kv.1 model = false := h kv (List.mem_cons_self kv rest)
    simp only [lookupCnModule, h0, Bool.false_eq_true, if_false]
    exact ih (fun kv' hkv' => h kv' (List.mem_cons_of_mem kv hkv'))

/-! ## C2 -/

/-- C2: with the module unspecified (Python `None` or the sentinel `"None"`),
`update_scripts_args` resolves it by scanning the keyword table in its fixed order and
taking the value of the first key that is a substring of the model name; a model name
containing `"depth"` and none of the five earlier-listed keywords resolves to
`"depth_midas"`; and when no key is a substring the module is left unset. -/
theorem resolveModule_first_match_wins :
    (∀ (model : String) (module : Option String) (i : Nat)
      (hmod : module = none ∨ module = some "None") (hi : i < cn_model_module.length)
      (hhit : pyIn (cn_model_module.get ⟨i, hi⟩).1 model = true)
      (hmiss : ∀ j (hj : j < i),
        pyIn (cn_model_module.get ⟨j, Nat.lt_trans hj hi⟩).1 model = false),
      resolveModule module model = some (cn_model_module.get ⟨i, hi⟩).2)
    ∧ (∀ (model : String) (module : Option String),
      module = none ∨ module = some "None" →
      (∀ kv ∈ cn_model_module, pyIn kv.1 model = false) →
      resolveModule module model = none)
    ∧ (∀ model : String, pyIn "depth" model = true →
      pyIn "inpaint" model = false → pyIn "scribble" model = false →
      pyIn "lineart" model = false → pyIn "openpose" model = false →
      pyIn "tile" model = false →
      resolveModule none model = some "depth_midas") := by
  refine ⟨?_, ?_, ?_⟩
  · intro model module i hmod hi hhit hmiss
    rw [resolveModule, if_pos hmod]
    exact lookupCnModule_hit model cn_model_module i hi hhit hmiss
  · intro model module hmod hmiss
    rw [resolveModule, if_pos hmod]
    exact lookupCnModule_miss model cn_model_module hmiss
  · intro model hdepth h0 h1 h2 h3 h4
    have := lookupCnModule_hit model cn_model_module 5 (by decide) hdepth ?_
    · rw [resolveModule, if_pos (Or.inl rfl)]
      exact this
    · intro j hj
      match j, hj with
      | 0, _ => exact h0
      | 1, _ => exact h1
      | 2, _ => exact h2
      | 3, _ => exact h3
      | 4, _ => exact h4

/-- Witness for C2 at a concrete model name. -/
theorem resolveModule_first_match_wins_witness :
    resolveModule none "control_v11_depth" = some "depth_midas" :=
  resolveModule_first_match_wins.2.2 "control_v11_depth"
    (by decide) (by decide) (by decide) (by decide) (by decide) (by decide)

/-! ## C3 -/

/-- C3: a call with the availability guard down or with the sentinel model `"None"`
returns immediately: no conditioning unit is constructed, the neighbor's merge hook is
never invoked (the invocation trace is empty), and hence the request's script
arguments — which this module writes only through that hook — are untouched. -/
theorem update_scripts_args_guard_noop (s : ControlNetExt) (p : Request) (model : String)
    (module : Option String) (weight guidance_start guidance_end : Int)
    (input_image : Option Image)
    (h : s.cn_available = false ∨ model = "None") :
    s.update_scripts_args p model module weight guidance_start guidance_end input_image
      = ([], .ok ()) := by
  rw [ControlNetExt.update_scripts_args, if_pos h]

/-- Witness for C3: the freshly constructed adapter with the sentinel model. -/
theorem update_scripts_args_guard_noop_witness :
    ControlNetExt.new.update_scripts_args ⟨[]⟩ "None" none 1 0 1 none = ([], .ok ()) :=
  update_scripts_args_guard_noop ControlNetExt.new ⟨[]⟩ "None" none 1 0 1 none
    (Or.inr rfl)

/-! ## C9 -/

/-- C9: the `lru_cache` memoization of the scanner.  A first call fills the memo slot;
any later call — under an arbitrary changed filesystem/settings state `env1` — returns
the identical cached list and leaves the slot unchanged, so directories are not
re-read and files are not re-hashed. -/
theorem cn_models_scan_memoized (env0 env1 : ScanEnv) :
    (_get_cn_models_cached env1 (_get_cn_models_cached env0 none).2).1
      = (_get_cn_models_cached env0 none).1
    ∧ (_get_cn_models_cached env1 (_get_cn_models_cached env0 none).2).2
      = (_get_cn_models_cached env0 none).2 := by
  constructor <;> rfl

/-! ## C7 -/

/-- C7: when the discovery loop found no matching extension, `controlnet_exists` is
false and `get_cn_models` returns `[]` for every filesystem/settings state — the scan
(and hence all hashing) is skipped entirely.  Moreover the adapter starts unavailable
and a failed `init_controlnet` import leaves its state untouched, so `cn_available`
stays false as long as no import succeeds. -/
theorem get_cn_models_skip_when_missing :
    (∀ (active : List ExtensionInfo) (env : ScanEnv),
      findControlnetExt active = none → get_cn_models active env = [])
    ∧ ControlNetExt.new.cn_available = false
    ∧ (∀ (s : ControlNetExt) (e : PyErr), (s.init_controlnet (.error e)).1 = s) := by
  refine ⟨?_, rfl, fun s e => rfl⟩
  intro active env h
  rw [get_cn_models, controlnet_exists, h]
  rfl

/-- Witness for C7: an active list whose only entry is an unrelated extension. -/
theorem get_cn_models_skip_when_missing_witness :
    get_cn_models [⟨"some-other-extension", true⟩] ⟨[⟨true, [⟨"openpose.pt", true, "h"⟩]⟩], ""⟩
      = [] :=
  get_cn_models_skip_when_missing.1 [⟨"some-other-extension", true⟩]
    ⟨[⟨true, [⟨"openpose.pt", true, "h"⟩]⟩], ""⟩ (by decide)

/-! ## C1 -/

/-- Helper: closed form of `update_scripts_args` past both guards, with a live handle,
when the face-identity scan of the existing script args returns without raising. -/
theorem update_scripts_args_closed_form (s : ControlNetExt) (api : ExternalCode)
    (p : Request) (model : String) (module : Option String)
    (weight guidance_start guidance_end : Int) (input_image : Option Image)
    (r : Option Image)
    (hav : s.cn_available = true) (hm : model ≠ "None") (hapi : s.external_cn = some api)
    (hex : extract_face_id_from_controlnet p.script_args = .ok r) :
    s.update_scripts_args p model module weight guidance_start guidance_end input_image
      = (let fr : Option Image × Bool :=
           if resolveModule module model = some "ip-adapter_face_id_plus" ∧ input_image = none
           then r.elim (input_image, input_image.isNone) (fun img => (some img, false))
           else (input_image, input_image.isNone)
         let cn_units : List ControlNetUnit :=
           [⟨model, weight, .BALANCED, resolveModule module model, guidance_start,
             guidance_end, true, fr.1.map .raw, fr.2⟩]
         ([cn_units], translateMergeResult (api.update_cn_script_in_processing p cn_units))) := by
  rw [ControlNetExt.update_scripts_args, if_neg (by simp [hav, hm]), hapi]
  simp only [hex]
  clear hex
  by_cases hf : resolveModule module model = some "ip-adapter_face_id_plus" ∧ input_image = none
  · rw [if_pos hf, if_pos hf]
    cases r <;> rfl
  · rw [if_neg hf, if_neg hf]

/-- C1 counterexample: a call that proceeds past both guards (`cn_available` true,
model not `"None"`) but constructs and merges NO conditioning unit — the face-identity
special case re-raises the `TypeError` from `extract_face_id_from_controlnet` when an
existing face-identity unit carries no image, so the merge-invocation trace is empty
and the call ends in an exception instead of exactly one merged unit. -/
theorem update_scripts_args_face_crash_no_merge :
    sAvail.cn_available = true ∧ "facemodel" ≠ "None" ∧
    sAvail.update_scripts_args pBad "facemodel" (some "ip-adapter_face_id_plus") 1 0 1 none
      = ([], .error (.typeError "'NoneType' object is not subscriptable")) :=
  ⟨rfl, by decide, rfl⟩

/-- C1 (amended): provided the face-identity scan of the request's existing script
arguments does not itself raise, every call past the guards constructs exactly one
conditioning unit and passes it (alone, in a one-invocation trace) to the neighbor's
merge hook, with control mode `BALANCED` and `pixel_perfect` enabled;
`inpaint_crop_input_image` is true iff the caller supplied no input image and the
face-identity reuse did not fire; and in the face-identity special case (resolved
module `"ip-adapter_face_id_plus"`, no input image supplied, a face-identity image
found in the existing script args) that image is reused as the unit's image with
`inpaint_crop_input_image` set to false. -/
theorem update_scripts_args_single_balanced_unit (s : ControlNetExt) (api : ExternalCode)
    (p : Request) (model : String) (module : Option String)
    (weight guidance_start guidance_end : Int) (input_image : Option Image)
    (r : Option Image)
    (hav : s.cn_available = true) (hm : model ≠ "None") (hapi : s.external_cn = some api)
    (hex : extract_face_id_from_controlnet p.script_args = .ok r) :
    ∃ u : ControlNetUnit,
      (s.update_scripts_args p model module weight guidance_start guidance_end
          input_image).1 = [[u]]
      ∧ u.control_mode = .BALANCED
      ∧ u.pixel_perfect = true
      ∧ (∀ img : Image,
          resolveModule module model = some "ip-adapter_face_id_plus" →
          input_image = none → r = some img →
          u.image = some (.raw img) ∧ u.inpaint_crop_input_image = false)
      ∧ (¬(resolveModule module model = some "ip-adapter_face_id_plus"
            ∧ input_image = none ∧ r.isSome = true) →
          u.image = input_image.map .raw
          ∧ (u.inpaint_crop_input_image = true ↔ input_image = none)) := by
  rw [update_scripts_args_closed_form s api p model module weight guidance_start
    guidance_end input_image r hav hm hapi hex]
  clear hex
  by_cases hf : resolveModule module model = some "ip-adapter_face_id_plus" ∧ input_image = none
  · rw [if_pos hf]
    cases r with
    | some img =>
      refine ⟨_, rfl, rfl, rfl, ?_, ?_⟩
      · intro img' _ _ hrr
        cases hrr
        exact ⟨rfl, rfl⟩
      · intro hnot
        exact absurd ⟨hf.1, hf.2, rfl⟩ hnot
    | none =>
      obtain ⟨hf1, hf2⟩ := hf
      subst hf2
      refine ⟨_, rfl, rfl, rfl, ?_, ?_⟩
      · intro img' _ _ hrr
        exact Option.noConfusion hrr
      · intro _
        exact ⟨rfl, by simp⟩
  · rw [if_neg hf]
    refine ⟨_, rfl, rfl, rfl, ?_, ?_⟩
    · intro img' h1 h2 _
      exact absurd ⟨h1, h2⟩ hf
    · intro _
      refine ⟨rfl, ?_⟩
      cases input_image <;> simp

/-- Witness for the amended C1 at a concrete openpose call with no input image. -/
theorem update_scripts_args_single_balanced_unit_witness :
    ∃ u : ControlNetUnit,
      (sAvail.update_scripts_args pEmpty "sd15_openpose" none 1 0 1 none).1 = [[u]]
      ∧ u.control_mode = .BALANCED
      ∧ u.pixel_perfect = true
      ∧ (∀ img : Image,
          resolveModule none "sd15_openpose" = some "ip-adapter_face_id_plus" →
          (none : Option Image) = none → (none : Option Image) = some img →
          u.image = some (.raw img) ∧ u.inpaint_crop_input_image = false)
      ∧ (¬(resolveModule none "sd15_openpose" = some "ip-adapter_face_id_plus"
            ∧ (none : Option Image) = none ∧ (none : Option Image).isSome = true) →
          u.image = (none : Option Image).map .raw
          ∧ (u.inpaint_crop_input_image = true ↔ (none : Option Image) = none)) :=
  update_scripts_args_single_balanced_unit sAvail apiOk pEmpty "sd15_openpose" none 1 0 1
    none none rfl (by decide) rfl rfl

/-! ## C5 -/

/-- C5: when the merge hook raises an `AttributeError`, the call translates it into
`RuntimeError(cnVersionMsg)` — the user-facing message citing the minimum supported
host version — exactly when the error message mentions `script_args_value`, and
re-raises it unchanged otherwise. -/
theorem update_scripts_args_attrerror_translation (s : ControlNetExt) (api : ExternalCode)
    (p : Request) (model : String) (module : Option String)
    (weight guidance_start guidance_end : Int) (input_image : Option Image)
    (r : Option Image) (mres : Except PyErr Unit)
    (hav : s.cn_available = true) (hm : model ≠ "None") (hapi : s.external_cn = some api)
    (hex : extract_face_id_from_controlnet p.script_args = .ok r)
    (hmerge : ∀ q units, api.update_cn_script_in_processing q units = mres) :
    (∀ emsg, mres = .error (.attributeError emsg) → pyIn "script_args_value" emsg = true →
      (s.update_scripts_args p model module weight guidance_start guidance_end
          input_image).2 = .error (.runtimeError cnVersionMsg))
    ∧ (∀ emsg, mres = .error (.attributeError emsg) → pyIn "script_args_value" emsg = false →
      (s.update_scripts_args p model module weight guidance_start guidance_end
          input_image).2 = .error (.attributeError emsg)) := by
  rw [update_scripts_args_closed_form s api p model module weight guidance_start
    guidance_end input_image r hav hm hapi hex]
  constructor
  · intro emsg hres hsub
    simp [hmerge, hres, translateMergeResult, hsub]
  · intro emsg hres hsub
    simp [hmerge, hres, translateMergeResult, hsub]

/-- Witness for C5: a host whose merge hook lacks `script_args_value`. -/
theorem update_scripts_args_attrerror_translation_witness :
    (sAttrOld.update_scripts_args pEmpty "sd15_openpose" none 1 0 1 none).2
      = .error (.runtimeError cnVersionMsg) :=
  (update_scripts_args_attrerror_translation sAttrOld apiAttrOld pEmpty "sd15_openpose"
    none 1 0 1 none none
    (.error (.attributeError "'ControlNetScript' object has no attribute 'script_args_value'"))
    rfl (by decide) rfl rfl (fun _ _ => rfl)).1
    "'ControlNetScript' object has no attribute 'script_args_value'" rfl (by decide)

/-! ## C6 -/

/-- C6 counterexample: `script_args` whose first face-identity argument (a native unit
with module `"ip-adapter_face_id_plus"` but *no* present image) is followed by a legacy
dict carrying an image.  The claim says the scan should return the image of the first
matching argument *with a present input image* — here `"face.png"` — or null; instead
the code subscripts the unit's absent image and raises `TypeError`, returning nothing. -/
theorem extract_face_id_unit_crash :
    extract_face_id_from_controlnet
      [.unit badFaceUnit, .dictArg (some "ip-adapter_face_id_plus") (some "face.png")]
      = .error (.typeError "'NoneType' object is not subscriptable") := rfl

/-- C6 (amended): `extract_face_id_from_controlnet` scans the script args in order and
stops at the first *hit*, where a legacy dict is a hit when its module matches the
face-identity variant and its `input_image` is present, but a native unit is a hit on
module match alone — the presence check is not performed for units: the unit's
`image["image"]` entry is then returned unconditionally (raising `TypeError` when the
unit's image is absent or not dict-shaped, and returning null when the entry itself is
null) without considering later arguments.  Null is returned when no argument is a
hit; in particular an image is found in a legacy dict argument when no native unit is
a hit. -/
theorem extract_face_id_first_hit :
    (∀ args : List ScriptArg,
      extract_face_id_from_controlnet args
        = (match args.find? faceArgHit with
           | none => .ok none
           | some a => faceArgResult a))
    ∧ (∀ img : Image,
      extract_face_id_from_controlnet
        [.other, .dictArg (some "ip-adapter_face_id_plus") (some img)]
        = .ok (some img)) := by
  constructor
  · intro args
    induction args with
    | nil => rfl
    | cons a rest ih =>
      cases a with
      | unit u =>
        by_cases hm : u.module = some "ip-adapter_face_id_plus"
        · rw [List.find?_cons_of_pos _ (by simp [faceArgHit, hm])]
          simp only [extract_face_id_from_controlnet, hm, if_pos, faceArgResult]
        · rw [List.find?_cons_of_neg _ (by simp [faceArgHit, hm])]
          rw [extract_face_id_from_controlnet, if_neg hm]
          exact ih
      | dictArg m input_image =>
        by_cases hm : m = some "ip-adapter_face_id_plus" ∧ input_image ≠ none
        · rw [List.find?_cons_of_pos _ (by simp [faceArgHit, hm.1, hm.2])]
          rw [extract_face_id_from_controlnet, if_pos hm]
          rfl
        · rw [List.find?_cons_of_neg _
            (by simp [faceArgHit]; intro h1; by_contra h2; exact hm ⟨h1, h2⟩)]
          rw [extract_face_id_from_controlnet, if_neg hm]
          exact ih
      | other =>
        rw [List.find?_cons_of_neg _ (by simp [faceArgHit])]
        rw [extract_face_id_from_controlnet]
        exact ih
  · intro img
    rfl

/-! ## C4 -/

/-- Helper: membership in the scanner's pre-sort survivor list, spelled out. -/
theorem mem_scanSurvivors (env : ScanEnv) (e : FSEntry) :
    e ∈ scanSurvivors env ↔
      (∃ d : ModelDir, d ∈ env.dirs ∧ d.onDisk = true ∧ e ∈ d.files)
      ∧ e.isFile = true
      ∧ pathSuffix e.name ∈ cn_model_exts
      ∧ cnModelRegexSearch e.name = true
      ∧ (pyLower (pyStripSpaces env.control_net_models_name_filter) = ""
         ∨ pyIn (pyLower (pyStripSpaces env.control_net_models_name_filter))
             (pyLower e.name) = true) := by
  simp only [scanSurvivors, List.mem_flatMap, List.mem_filter, Bool.and_eq_true,
    Bool.or_eq_true, List.contains, List.elem_eq_mem, decide_eq_true_eq]
  constructor
  · rintro ⟨d, ⟨hd, hdisk⟩, he, ⟨⟨⟨hfile, hext⟩, hregex⟩, hfilter⟩⟩
    exact ⟨⟨d, hd, hdisk, he⟩, hfile, hext, hregex, hfilter⟩
  · rintro ⟨⟨d, hd, hdisk, he⟩, hfile, hext, hregex, hfilter⟩
    exact ⟨d, ⟨hd, hdisk⟩, he, ⟨⟨⟨hfile, hext⟩, hregex⟩, hfilter⟩⟩

/-- C4: a string is in the catalog iff it is the `"<stem> [<hash>]"` formatting of a
regular file, in some existing scanned directory, whose extension is one of the five
whitelisted formats, whose filename matches the keyword union regex, and which passes
the optional case-insensitive substring name filter from host settings; and of the
files `"openpose_v1.safetensors"` and `"randomfile.txt"` (in two directories), only
the first appears, formatted with its hash. -/
theorem cn_models_catalog_spec :
    (∀ (env : ScanEnv) (s : String),
      s ∈ _get_cn_models env ↔
        ∃ e : FSEntry,
          (∃ d : ModelDir, d ∈ env.dirs ∧ d.onDisk = true ∧ e ∈ d.files)
          ∧ e.isFile = true
          ∧ pathSuffix e.name ∈ cn_model_exts
          ∧ cnModelRegexSearch e.name = true
          ∧ (pyLower (pyStripSpaces env.control_net_models_name_filter) = ""
             ∨ pyIn (pyLower (pyStripSpaces env.control_net_models_name_filter))
                 (pyLower e.name) = true)
          ∧ s = pathStem e.name ++ " [" ++ e.hash ++ "]")
    ∧ _get_cn_models
        ⟨[⟨true, [⟨"openpose_v1.safetensors", true, "1a2b3c4d"⟩]⟩,
          ⟨true, [⟨"randomfile.txt", true, "5e6f7a8b"⟩]⟩], ""⟩
        = ["openpose_v1 [1a2b3c4d]"] := by
  constructor
  · intro env s
    simp only [_get_cn_models, List.mem_map, List.mem_insertionSort, mem_scanSurvivors]
    constructor
    · rintro ⟨e, ⟨hd, hfile, hext, hregex, hfilter⟩, hs⟩
      exact ⟨e, hd, hfile, hext, hregex, hfilter, hs.symm⟩
    · rintro ⟨e, hd, hfile, hext, hregex, hfilter, hs⟩
      exact ⟨e, ⟨hd, hfile, hext, hregex, hfilter⟩, hs.symm⟩
  · decide

/-! ## C8 -/

theorem charListLe_cons_same (a : Char) (xs ys : List Char) :
    charListLe (a :: xs) (a :: ys) = charListLe xs ys := by
  simp [charListLe]

theorem charListLe_total : ∀ as bs : List Char,
    charListLe as bs = true ∨ charListLe bs as = true := by
  intro as
  induction as with
  | nil => intro bs; exact Or.inl rfl
  | cons a as ih =>
    intro bs
    cases bs with
    | nil => exact Or.inr rfl
    | cons b bs =>
      by_cases hab : a < b
      · left; simp [charListLe, hab]
      · by_cases hba : b < a
        · right; simp [charListLe, hba]
        · have habeq : a = b := le_antisymm (not_lt.mp hba) (not_lt.mp hab)
          subst habeq
          rw [charListLe_cons_same, charListLe_cons_same]
          exact ih bs

theorem charListLe_trans : ∀ as bs cs : List Char,
    charListLe as bs = true → charListLe bs cs = true → charListLe as cs = true := by
  intro as
  induction as with
  | nil => intros; rfl
  | cons a as ih =>
    intro bs cs h1 h2
    cases bs with
    | nil => simp [charListLe] at h1
    | cons b bs =>
      cases cs with
      | nil => simp [charListLe] at h2
      | cons c cs =>
        by_cases hab : a < b
        · by_cases hbc : b < c
          · simp [charListLe, lt_trans hab hbc]
          · by_cases hcb : c < b
            · simp [charListLe, hbc, hcb] at h2
            · have hbceq : b = c := le_antisymm (not_lt.mp hcb) (not_lt.mp hbc)
              subst hbceq
              simp [charListLe, hab]
        · by_cases hba : b < a
          · simp [charListLe, hab, hba] at h1
          · have habeq : a = b := le_antisymm (not_lt.mp hba) (not_lt.mp hab)
            subst habeq
            rw [charListLe_cons_same] at h1
            by_cases hac : a < c
            · simp [charListLe, hac]
            · by_cases hca : c < a
              · simp [charListLe, hac, hca] at h2
              · have haceq : a = c := le_antisymm (not_lt.mp hca) (not_lt.mp hac)
                subst haceq
                rw [charListLe_cons_same] at h2 ⊢
                exact ih bs cs h1 h2

theorem charListLe_antisymm : ∀ as bs : List Char,
    charListLe as bs = true → charListLe bs as = true → as = bs := by
  intro as
  induction as with
  | nil =>
    intro bs _ h2
    cases bs with
    | nil => rfl
    | cons b bs => simp [charListLe] at h2
  | cons a as ih =>
    intro bs h1 h2
    cases bs with
    | nil => simp [charListLe] at h1
    | cons b bs =>
      by_cases hab : a < b
      · simp [charListLe, lt_asymm hab, hab] at h2
      · by_cases hba : b < a
        · simp [charListLe, hab, hba] at h1
        · have habeq : a = b := le_antisymm (not_lt.mp hba) (not_lt.mp hab)
          subst habeq
          rw [charListLe_cons_same] at h1 h2
          rw [ih bs h1 h2]

theorem entryLe_trans {a b c : FSEntry} (h1 : entryLe a b) (h2 : entryLe b c) :
    entryLe a c :=
  charListLe_trans _ _ _ h1 h2

theorem entryLe_total (a b : FSEntry) : entryLe a b ∨ entryLe b a :=
  charListLe_total _ _

theorem pairwise_orderedInsert (a : FSEntry) :
    ∀ l : List FSEntry, l.Pairwise entryLe →
      (List.orderedInsert entryLe a l).Pairwise entryLe := by
  intro l
  induction l with
  | nil => intro _; exact List.pairwise_singleton entryLe a
  | cons b l ih =>
    intro h
    rw [List.orderedInsert]
    obtain ⟨hb, hl⟩ := List.pairwise_cons.mp h
    by_cases hab : entryLe a b
    · rw [if_pos hab]
      refine List.pairwise_cons.mpr ⟨?_, h⟩
      intro x hx
      rcases List.mem_cons.mp hx with rfl | hx'
      · exact hab
      · exact entryLe_trans hab (hb x hx')
    · rw [if_neg hab]
      refine List.pairwise_cons.mpr ⟨?_, ih hl⟩
      intro x hx
      rcases (List.mem_orderedInsert entryLe).mp hx with hxa | hx'
      · rw [hxa]
        exact (entryLe_total a b).resolve_left hab
      · exact hb x hx'

theorem pairwise_insertionSort (l : List FSEntry) :
    (List.insertionSort entryLe l).Pairwise entryLe := by
  induction l with
  | nil => exact List.Pairwise.nil
  | cons a l ih => exact pairwise_orderedInsert a _ ih

/-- Two sorted lists that are permutations of each other and whose filenames are
pairwise distinct are equal. -/
theorem sorted_perm_nodup_names_eq :
    ∀ l₁ l₂ : List FSEntry, l₁.Perm l₂ → l₁.Pairwise entryLe → l₂.Pairwise entryLe →
      (l₁.map FSEntry.name).Nodup → l₁ = l₂ := by
  intro l₁
  induction l₁ with
  | nil =>
    intro l₂ hp _ _ _
    exact hp.nil_eq
  | cons a t₁ ih =>
    intro l₂ hp hs₁ hs₂ hnd
    cases l₂ with
    | nil => exact absurd hp.eq_nil (by simp)
    | cons b t₂ =>
      rw [List.map_cons, List.nodup_cons] at hnd
      have hab : a = b := by
        have ha2 : a ∈ b :: t₂ := hp.mem_iff.mp (List.mem_cons_self a t₁)
        rcases List.mem_cons.mp ha2 with h | haint₂
        · exact h
        · have hb1 : b ∈ a :: t₁ := hp.symm.mem_iff.mp (List.mem_cons_self b t₂)
          rcases List.mem_cons.mp hb1 with h | hbint₁
          · exact h.symm
          · have h1 : entryLe a b := (List.pairwise_cons.mp hs₁).1 b hbint₁
            have h2 : entryLe b a := (List.pairwise_cons.mp hs₂).1 a haint₂
            have hname : a.name = b.name :=
              String.toList_inj.mp (charListLe_antisymm _ _ h1 h2)
            exact absurd (hname ▸ List.mem_map_of_mem FSEntry.name hbint₁) hnd.1
      subst hab
      have ht : t₁.Perm t₂ := hp.cons_inv
      have htl := ih t₂ ht (List.pairwise_cons.mp hs₁).2 (List.pairwise_cons.mp hs₂).2 hnd.2
      rw [htl]

/-- C8 counterexample: two directories holding distinct files with the same filename
`"openpose.pt"` but different contents (hence different hashes).  Listing the
directories in the two orders traverses the same set of on-disk files — the flattened
listings are permutations of one another, as are the survivor lists — yet the two
ordered catalogs differ, because the sort is stable and ties on the filename key are
broken by traversal order. -/
theorem cn_models_dir_order_dependent :
    (dupEnvA.dirs.flatMap ModelDir.files).Perm (dupEnvB.dirs.flatMap ModelDir.files)
    ∧ (scanSurvivors dupEnvA).Perm (scanSurvivors dupEnvB)
    ∧ _get_cn_models dupEnvA = ["openpose [hashA]", "openpose [hashB]"]
    ∧ _get_cn_models dupEnvB = ["openpose [hashB]", "openpose [hashA]"]
    ∧ _get_cn_models dupEnvA ≠ _get_cn_models dupEnvB :=
  ⟨by decide, by decide, by decide, by decide, by decide⟩

/-- C8 (amended): the catalog is always the survivor set listed in filename-sorted
order (and then formatted); and the same set of on-disk files yields the same ordered
catalog regardless of the order in which the directories are listed or traversed,
provided no two distinct surviving files share a filename — with duplicate filenames
the stable sort breaks ties by traversal order (see the counterexample). -/
theorem cn_models_sorted_deterministic :
    (∀ env : ScanEnv,
      ∃ ordered : List FSEntry,
        ordered.Pairwise entryLe
        ∧ ordered.Perm (scanSurvivors env)
        ∧ _get_cn_models env
            = ordered.map (fun e => pathStem e.name ++ " [" ++ e.hash ++ "]"))
    ∧ (∀ env₁ env₂ : ScanEnv,
        (scanSurvivors env₁).Perm (scanSurvivors env₂) →
        ((scanSurvivors env₁).map FSEntry.name).Nodup →
        _get_cn_models env₁ = _get_cn_models env₂) := by
  constructor
  · intro env
    exact ⟨List.insertionSort entryLe (scanSurvivors env), pairwise_insertionSort _,
      List.perm_insertionSort entryLe (scanSurvivors env), rfl⟩
  · intro env₁ env₂ hperm hnd
    have hp : (List.insertionSort entryLe (scanSurvivors env₁)).Perm
        (List.insertionSort entryLe (scanSurvivors env₂)) :=
      (List.perm_insertionSort entryLe (scanSurvivors env₁)).trans
        (hperm.trans (List.perm_insertionSort entryLe (scanSurvivors env₂)).symm)
    have hnd' : ((List.insertionSort entryLe (scanSurvivors env₁)).map FSEntry.name).Nodup :=
      (((List.perm_insertionSort entryLe (scanSurvivors env₁)).map FSEntry.name).nodup_iff).mpr hnd
    have heq := sorted_perm_nodup_names_eq _ _ hp
      (pairwise_insertionSort (scanSurvivors env₁))
      (pairwise_insertionSort (scanSurvivors env₂)) hnd'
    rw [_get_cn_models, _get_cn_models, heq]

/-- Witness for the amended C8: swapping two directories with distinct filenames
leaves the catalog unchanged. -/
theorem cn_models_sorted_deterministic_witness :
    _get_cn_models
        ⟨[⟨true, [⟨"a_depth.pt", true, "h4"⟩]⟩, ⟨true, [⟨"z_tile.pt", true, "h3"⟩]⟩], ""⟩
      = _get_cn_models
        ⟨[⟨true, [⟨"z_tile.pt", true, "h3"⟩]⟩, ⟨true, [⟨"a_depth.pt", true, "h4"⟩]⟩], ""⟩ :=
  cn_models_sorted_deterministic.2
    ⟨[⟨true, [⟨"a_depth.pt", true, "h4"⟩]⟩, ⟨true, [⟨"z_tile.pt", true, "h3"⟩]⟩], ""⟩
    ⟨[⟨true, [⟨"z_tile.pt", true, "h3"⟩]⟩, ⟨true, [⟨"a_depth.pt", true, "h4"⟩]⟩], ""⟩
    (by decide) (by decide)

/-! ## C10 -/

/-- Helper: `extract_face_id_from_controlnet` only ever raises `TypeError`. -/
theorem extract_error_is_typeError :
    ∀ (args : List ScriptArg) (e : PyErr),
      extract_face_id_from_controlnet args = .error e → ∃ m, e = .typeError m := by
  intro args
  induction args with
  | nil => intro e h; exact absurd h (by simp [extract_face_id_from_controlnet])
  | cons a rest ih =>
    intro e h
    cases a with
    | unit u =>
      rw [extract_face_id_from_controlnet] at h
      by_cases hm : u.module = some "ip-adapter_face_id_plus"
      · rw [if_pos hm] at h
        cases hI : u.image with
        | none =>
          rw [hI] at h
          injection h with h'
          exact ⟨_, h'.symm⟩
        | some iv =>
          rw [hI] at h
          cases iv with
          | raw img =>
            injection h with h'
            exact ⟨_, h'.symm⟩
          | imgDict i => exact absurd h (by simp)
      · rw [if_neg hm] at h
        exact ih e h
    | dictArg m input_image =>
      rw [extract_face_id_from_controlnet] at h
      by_cases hm : m = some "ip-adapter_face_id_plus" ∧ input_image ≠ none
      · rw [if_pos hm] at h
        exact absurd h (by simp)
      · rw [if_neg hm] at h
        exact ih e h
    | other =>
      rw [extract_face_id_from_controlnet] at h
      exact ih e h

/-- Helper: past the guards, with a live handle, a raising face-identity scan makes
the whole call re-raise that error with no merge invocation. -/
theorem update_scripts_args_extract_error (s : ControlNetExt) (api : ExternalCode)
    (p : Request) (model : String) (module : Option String)
    (weight guidance_start guidance_end : Int) (input_image : Option Image) (e : PyErr)
    (hav : s.cn_available = true) (hm : model ≠ "None") (hapi : s.external_cn = some api)
    (hf : resolveModule module model = some "ip-adapter_face_id_plus" ∧ input_image = none)
    (hex : extract_face_id_from_controlnet p.script_args = .error e) :
    s.update_scripts_args p model module weight guidance_start guidance_end input_image
      = ([], .error e) := by
  rw [ControlNetExt.update_scripts_args, if_neg (by simp [hav, hm]), hapi]
  simp only [hex, if_pos hf]

/-- Helper: past the guards, with a live handle, when the face-identity case does not
apply the call goes straight to the merge hook. -/
theorem update_scripts_args_nonface (s : ControlNetExt) (api : ExternalCode)
    (p : Request) (model : String) (module : Option String)
    (weight guidance_start guidance_end : Int) (input_image : Option Image)
    (hav : s.cn_available = true) (hm : model ≠ "None") (hapi : s.external_cn = some api)
    (hnf : ¬(resolveModule module model = some "ip-adapter_face_id_plus"
              ∧ input_image = none)) :
    s.update_scripts_args p model module weight guidance_start guidance_end input_image
      = (let cn_units : List ControlNetUnit :=
           [⟨model, weight, .BALANCED, resolveModule module model, guidance_start,
             guidance_end, true, input_image.map .raw, input_image.isNone⟩]
         ([cn_units], translateMergeResult (api.update_cn_script_in_processing p cn_units))) := by
  rw [ControlNetExt.update_scripts_args, if_neg (by simp [hav, hm]), hapi]
  simp only [if_neg hnf]

/-- C10: in every reachable adapter state, `cn_available = true` implies the imported
handle `external_cn` is non-null; `cn_available` is never reset by `init_controlnet`
(the only state-changing operation — `update_scripts_args` and the extractor never
assign to `self`); it becomes true only through a successful dynamic import; and
consequently `update_scripts_args` on a reachable state never takes the null-handle
dereference path after passing its availability guard. -/
theorem controlnet_ext_available_invariant :
    (∀ s : ControlNetExt, Reachable s → s.cn_available = true →
      ∃ api, s.external_cn = some api)
    ∧ (∀ (s : ControlNetExt) (r : Except PyErr ExternalCode),
        s.cn_available = true → (s.init_controlnet r).1.cn_available = true)
    ∧ (∀ (s : ControlNetExt) (r : Except PyErr ExternalCode),
        (s.init_controlnet r).1.cn_available = true →
        s.cn_available = true ∨ ∃ api, r = .ok api)
    ∧ (∀ (s : ControlNetExt) (p : Request) (model : String) (module : Option String)
        (weight guidance_start guidance_end : Int) (input_image : Option Image),
        Reachable s → s.cn_available = true →
        s.update_scripts_args p model module weight guidance_start guidance_end input_image
          ≠ ([], .error (.attributeError "'NoneType' object has no attribute 'ControlNetUnit'"))) := by
  have inv : ∀ s : ControlNetExt, Reachable s → s.cn_available = true →
      ∃ api, s.external_cn = some api := by
    intro s hr
    induction hr with
    | base => intro hav; exact absurd hav (by simp [ControlNetExt.new])
    | step s' r hr' ih =>
      intro hav
      cases r with
      | error e => exact ih hav
      | ok api => exact ⟨api, rfl⟩
  refine ⟨inv, ?_, ?_, ?_⟩
  · intro s r hav
    cases r with
    | error e => exact hav
    | ok api => rfl
  · intro s r h
    cases r with
    | error e => exact Or.inl h
    | ok api => exact Or.inr ⟨api, rfl⟩
  · intro s p model module weight guidance_start guidance_end input_image hr hav
    obtain ⟨api, hapi⟩ := inv s hr hav
    by_cases hm : model = "None"
    · rw [update_scripts_args_guard_noop s p model module weight guidance_start
        guidance_end input_image (Or.inr hm)]
      simp
    · by_cases hf : resolveModule module model = some "ip-adapter_face_id_plus"
          ∧ input_image = none
      · cases hex : extract_face_id_from_controlnet p.script_args with
        | ok r =>
          rw [update_scripts_args_closed_form s api p model module weight guidance_start
            guidance_end input_image r hav hm hapi hex]
          simp
        | error e =>
          rw [update_scripts_args_extract_error s api p model module weight guidance_start
            guidance_end input_image e hav hm hapi hf hex]
          obtain ⟨msg, rfl⟩ := extract_error_is_typeError p.script_args e hex
          simp
      · rw [update_scripts_args_nonface s api p model module weight guidance_start
          guidance_end input_image hav hm hapi hf]
        simp

/-- Witness for C10 at the state reached by one successful `init_controlnet`. -/
theorem controlnet_ext_available_invariant_witness :
    ∃ api, ((ControlNetExt.new.init_controlnet (.ok apiOk)).1).external_cn = some api :=
  controlnet_ext_available_invariant.1 (ControlNetExt.new.init_controlnet (.ok apiOk)).1
    (Reachable.step ControlNetExt.new (.ok apiOk) Reachable.base) rfl
